import Mathlib

/-!
Verification of the Slide Composition Engine of a Google-Slides MCP server.

The development shallowly embeds the TypeScript sources:
  - `src/addSlides.ts` — the two-phase slide composer (`addNewParagraphSlide`,
    `addNewBulletSlide`, `addCustomSlide`);
  - `src/createPresentation.ts` — the document bootstrapper
    (`createPresentation`) and the orchestrator (`initiateSlides`);
  - `src/index.ts` — the three tool handlers (extract-data,
    create-presentation, add-custom-slide) and their CSV row lookup;
  - `src/globals.ts` — the session-state slot (`presentationID`, `auth`).

Remote interaction is modelled by making every response of the Google
Slides service an explicit parameter (the fetched `Document`, the id
returned by `presentations.create`, the generated unique id and date
string), and by returning the ordered trace of calls the code issues.
A JavaScript `string | null | undefined` field is an `Option String`;
JavaScript falsiness of such a field (`!x`) is `strFalsy`.  An
out-of-bounds element access followed by a property read (`xs[1].objectId`
with `xs.length = 1`), which throws a `TypeError` at runtime, is modelled
by the dedicated error value `typeError`.
-/

namespace SlidesMCP

/-- A placeholder page element of a slide: `pageElements[i]` in the API
response; `objectId` may be absent. -/
structure PageElement where
  objectId : Option String
deriving Repr, DecidableEq

/-- A slide as returned by `presentations.get`: its `pageElements` array may
be absent. -/
structure Slide where
  pageElements : Option (List PageElement)
deriving Repr, DecidableEq

/-- A document as returned by `presentations.get`: its ordered `slides` array
may be absent. -/
structure Document where
  slides : Option (List Slide)
deriving Repr, DecidableEq

/-- One atomic request inside a `batchUpdate` mutation batch, mirroring the
request objects built in the sources. -/
inductive Request where
  | createSlide (objectId layout : String)
  | insertText (objectId text : String) (insertionIndex : Nat)
  | updateTextStyle (objectId : String) (bold : Bool) (fontFamily : String)
      (fontSizePt : Nat) (rangeAll : Bool)
  | createParagraphBullets (objectId : String) (rangeAll : Bool)
      (bulletPreset : String)
deriving Repr, DecidableEq

/-- A call to the remote Document Service. -/
inductive ServiceCall where
  | create (title : String)
  | getPresentation (presentationId : String)
  | batchUpdate (presentationId : String) (requests : List Request)
deriving Repr, DecidableEq

/-- An observable event of a run: session-state writes (`setAuthToken`,
`setPresentationID` from `globals.ts`), an invocation of the slide composer
(`addCustomSlide` call site), or a Document Service call. -/
inductive Event where
  | setAuthToken
  | setPresentationID (id : String)
  | addSlideInvoked (title content presentationId slideType : String)
  | service (call : ServiceCall)
deriving Repr, DecidableEq

/-- The distinct `throw new Error(...)` sites of `addSlides.ts`, plus
`typeError` for the runtime crash of an out-of-bounds element read. -/
inductive SlideError where
  | noPresentationID
  | noAuth
  | noSlidesArray
  | slideNotFoundOrNoElements
  | typeError
  | idsNotSet
  | invalidPresentationId
  | invalidSlideType
deriving Repr, DecidableEq

/-- The errors of `addSlides.ts` that report a document shape violating the
positional invariants (the spec's `StructureError` class): the slide array
missing, or the resolved slide missing or without elements. -/
def SlideError.isStructure : SlideError → Bool
  | .noSlidesArray => true
  | .slideNotFoundOrNoElements => true
  | _ => false

/-- JavaScript falsiness of an optional string field: `!x` is true exactly
when the field is absent (`null`/`undefined`) or the empty string. -/
def strFalsy : Option String → Bool
  | none => true
  | some s => s = ""

/-- The last slide of a fetched document (`slides[slides.length - 1]`). -/
def lastSlideOf (d : Document) : Option Slide :=
  d.slides.bind List.getLast?

/-- The first slide of a fetched document (`slides?.[0]`). -/
def firstSlideOf (d : Document) : Option Slide :=
  d.slides.bind List.head?

/-- Embedding of `addNewParagraphSlide` (`src/addSlides.ts`).  Parameters
`presentationID` and `authSet` are the global session-state values read at
entry; `uniqueID` is the generated slide id; `fetched` is the document the
`presentations.get` of Phase 2 returns.  The result is the ordered list of
Document Service calls issued together with `none` on success or the error
thrown. -/
def addNewParagraphSlide (presentationID : Option String) (authSet : Bool)
    (uniqueID : String) (fetched : Document) (title content : String) :
    List ServiceCall × Option SlideError :=
  match presentationID with
  | none => ([], some .noPresentationID)
  | some pid =>
    if authSet = false then ([], some .noAuth)
    else
      let createBatch : ServiceCall :=
        .batchUpdate pid [.createSlide uniqueID "TITLE_AND_BODY"]
      let fetchCall : ServiceCall := .getPresentation pid
      match fetched.slides with
      | none => ([createBatch, fetchCall], some .noSlidesArray)
      | some slidesArray =>
        match slidesArray.getLast? with
        | none => ([createBatch, fetchCall], some .slideNotFoundOrNoElements)
        | some currentSlide =>
          match currentSlide.pageElements with
          | none => ([createBatch, fetchCall], some .slideNotFoundOrNoElements)
          | some pes =>
            match pes with
            | [] => ([createBatch, fetchCall], some .slideNotFoundOrNoElements)
            | pe0 :: rest =>
              match rest with
              | [] => ([createBatch, fetchCall], some .typeError)
              | pe1 :: _ =>
                if strFalsy pe1.objectId || strFalsy pe0.objectId then
                  ([createBatch, fetchCall], some .idsNotSet)
                else
                  ([createBatch, fetchCall,
                    .batchUpdate pid
                      [.insertText (pe0.objectId.getD "") title 0,
                       .updateTextStyle (pe0.objectId.getD "") true
                         "Times New Roman" 25 true,
                       .insertText (pe1.objectId.getD "") content 0]],
                   none)

/-- Embedding of `addNewBulletSlide` (`src/addSlides.ts`): identical to
`addNewParagraphSlide` except that the populate batch carries a fourth
`createParagraphBullets` request. -/
def addNewBulletSlide (presentationID : Option String) (authSet : Bool)
    (uniqueID : String) (fetched : Document) (title content : String) :
    List ServiceCall × Option SlideError :=
  match presentationID with
  | none => ([], some .noPresentationID)
  | some pid =>
    if authSet = false then ([], some .noAuth)
    else
      let createBatch : ServiceCall :=
        .batchUpdate pid [.createSlide uniqueID "TITLE_AND_BODY"]
      let fetchCall : ServiceCall := .getPresentation pid
      match fetched.slides with
      | none => ([createBatch, fetchCall], some .noSlidesArray)
      | some slidesArray =>
        match slidesArray.getLast? with
        | none => ([createBatch, fetchCall], some .slideNotFoundOrNoElements)
        | some currentSlide =>
          match currentSlide.pageElements with
          | none => ([createBatch, fetchCall], some .slideNotFoundOrNoElements)
          | some pes =>
            match pes with
            | [] => ([createBatch, fetchCall], some .slideNotFoundOrNoElements)
            | pe0 :: rest =>
              match rest with
              | [] => ([createBatch, fetchCall], some .typeError)
              | pe1 :: _ =>
                if strFalsy pe1.objectId || strFalsy pe0.objectId then
                  ([createBatch, fetchCall], some .idsNotSet)
                else
                  ([createBatch, fetchCall,
                    .batchUpdate pid
                      [.insertText (pe0.objectId.getD "") title 0,
                       .updateTextStyle (pe0.objectId.getD "") true
                         "Times New Roman" 25 true,
                       .insertText (pe1.objectId.getD "") content 0,
                       .createParagraphBullets (pe1.objectId.getD "") true
                         "BULLET_DISC_CIRCLE_SQUARE"]],
                   none)

/-- Embedding of `addCustomSlide` (`src/addSlides.ts`): authorizes (a
Credential-collaborator call, recorded as `setAuthToken`), validates the
presentation id, records it in session state, then dispatches on the slide
type string; an unrecognized type hits the `default` branch and throws.
Events are returned in order together with the outcome. -/
def addCustomSlide (title content presentationId slideType uniqueID : String)
    (fetched : Document) : List Event × Option SlideError :=
  if presentationId = "" then
    ([Event.setAuthToken], some .invalidPresentationId)
  else
    let events : List Event :=
      [Event.setAuthToken, Event.setPresentationID presentationId]
    if slideType = "Paragraph" then
      let r := addNewParagraphSlide (some presentationId) true uniqueID
        fetched title content
      (events ++ r.1.map Event.service, r.2)
    else if slideType = "Bullet" then
      let r := addNewBulletSlide (some presentationId) true uniqueID
        fetched title content
      (events ++ r.1.map Event.service, r.2)
    else
      (events, some .invalidSlideType)

/-- The Document Service calls among a run's events. -/
def docServiceCallsOf (events : List Event) : List ServiceCall :=
  events.filterMap fun e =>
    match e with
    | .service c => some c
    | _ => none

/-- The argument tuples of the slide-composer invocations among a run's
events. -/
def addSlideArgsOf (events : List Event) :
    List (String × String × String × String) :=
  events.filterMap fun e =>
    match e with
    | .addSlideInvoked t c p s => some (t, c, p, s)
    | _ => none

/-- Whether an event is a slide-composer invocation. -/
def Event.isAddSlide : Event → Bool
  | .addSlideInvoked _ _ _ _ => true
  | _ => false

/-- The distinct `throw new Error(...)` sites of `createPresentation`
(`src/createPresentation.ts`), plus `typeError` for the runtime crash of the
out-of-bounds `pageElements[1].objectId` read. -/
inductive CreateError where
  | nullPresentationId
  | noSlides
  | noElements
  | typeError
  | idsNotSet
deriving Repr, DecidableEq

/-- The errors of `createPresentation` reporting a document shape violating
the positional invariants (missing slides, missing placeholder elements). -/
def CreateError.isStructure : CreateError → Bool
  | .noSlides => true
  | .noElements => true
  | _ => false

/-- Embedding of `createPresentation` (`src/createPresentation.ts`).
`createdId` is the `presentationId` the service's `presentations.create`
returns; `fetched` is the document the subsequent `presentations.get`
returns; `dateStr` is the date part of the current ISO timestamp
(`new Date().toISOString().split("T")[0]`), supplied by the clock.  The
result is the ordered event trace and either the thrown error or the
returned presentation id. -/
def createPresentation (companyName : String) (createdId : Option String)
    (fetched : Document) (dateStr : String) :
    List Event × Except CreateError String :=
  let createCall : Event := .service (.create (companyName ++ " Slide Deck"))
  if strFalsy createdId then ([createCall], .error .nullPresentationId)
  else
    let pid := createdId.getD ""
    let events : List Event :=
      [createCall, .setPresentationID pid, .service (.getPresentation pid)]
    match fetched.slides with
    | none => (events, .error .noSlides)
    | some slidesList =>
      match slidesList with
      | [] => (events, .error .noSlides)
      | firstSlide :: _ =>
        match firstSlide.pageElements with
        | none => (events, .error .noElements)
        | some pes =>
          match pes with
          | [] => (events, .error .noElements)
          | pe0 :: rest =>
            match rest with
            | [] => (events, .error .typeError)
            | pe1 :: _ =>
              if strFalsy pe1.objectId || strFalsy pe0.objectId then
                (events, .error .idsNotSet)
              else
                (events ++
                  [.service (.batchUpdate pid
                    [.insertText (pe0.objectId.getD "") companyName 0,
                     .insertText (pe1.objectId.getD "")
                       ("Created: " ++ dateStr) 0])],
                 .ok pid)

/-- The error surfaced by `initiateSlides`: a failed bootstrap, the null
check on the fresh id, or a failed slide composition. -/
inductive InitError where
  | createFailed (e : CreateError)
  | nullId
  | slideFailed (e : SlideError)
deriving Repr, DecidableEq

/-- Title of the pre-set bullet slide (`src/createPresentation.ts`). -/
def preSetBulletTitle : String := "[Insert pre-set title]"

/-- Content of the pre-set bullet slide. -/
def preSetBulletContent : String :=
  "[Insert pre-set content]\nThis is sample bullet content"

/-- Title prepared for the pre-set paragraph slide (declared in the source
but never passed to any call). -/
def preSetParagraphTitle : String := "[Insert pre-set title]"

/-- Content prepared for the pre-set paragraph slide (declared in the source
but never passed to any call). -/
def preSetParagraphContent : String :=
  "[Insert pre-set content]\nThis is sample paragraph content"

/-- Embedding of `initiateSlides` (`src/createPresentation.ts`), the
orchestrator: authorize, bootstrap a document, re-record its id in session
state, null-check it, then issue the two pre-set `addCustomSlide` calls —
both of which the source passes the bullet title, bullet content and
`"Bullet"` style.  `uid1`/`doc1` and `uid2`/`doc2` are the generated slide
id and fetched document of the first and second composition. -/
def initiateSlides (companyName : String) (createdId : Option String)
    (titleDoc : Document) (dateStr : String)
    (uid1 : String) (doc1 : Document) (uid2 : String) (doc2 : Document) :
    List Event × Except InitError String :=
  let events0 : List Event := [.setAuthToken]
  let cp := createPresentation companyName createdId titleDoc dateStr
  match cp.2 with
  | .error e => (events0 ++ cp.1, .error (.createFailed e))
  | .ok newPresentationId =>
    let events1 := events0 ++ cp.1 ++
      [Event.setPresentationID newPresentationId]
    if newPresentationId = "" then (events1, .error .nullId)
    else
      let events2 := events1 ++
        [Event.addSlideInvoked preSetBulletTitle preSetBulletContent
          newPresentationId "Bullet"]
      let r1 := addCustomSlide preSetBulletTitle preSetBulletContent
        newPresentationId "Bullet" uid1 doc1
      match r1.2 with
      | some e => (events2 ++ r1.1, .error (.slideFailed e))
      | none =>
        let events3 := events2 ++ r1.1 ++
          [Event.addSlideInvoked preSetBulletTitle preSetBulletContent
            newPresentationId "Bullet"]
        let r2 := addCustomSlide preSetBulletTitle preSetBulletContent
          newPresentationId "Bullet" uid2 doc2
        match r2.2 with
        | some e => (events3 ++ r2.1, .error (.slideFailed e))
        | none => (events3 ++ r2.1, .ok newPresentationId)

/-- Splitter on a single separator character, accumulating the current
field: the model of JavaScript `String.prototype.split` with a one-character
separator. -/
def splitCharsAux (sep : Char) : List Char → List Char → List (List Char)
  | [], acc => [acc.reverse]
  | c :: cs, acc =>
    if c = sep then acc.reverse :: splitCharsAux sep cs []
    else splitCharsAux sep cs (c :: acc)

/-- JavaScript `s.split(sep)` for a one-character separator. -/
def jsSplit (sep : Char) (s : String) : List String :=
  (splitCharsAux sep s.data []).map String.mk

/-- Drop leading whitespace characters. -/
def dropLeadingWs : List Char → List Char
  | [] => []
  | c :: cs => if c.isWhitespace then dropLeadingWs cs else c :: cs

/-- JavaScript `s.trim()`: surrounding whitespace removed. -/
def jsTrim (s : String) : String :=
  String.mk (dropLeadingWs ((dropLeadingWs s.data.reverse).reverse))

/-- JavaScript `s.toLowerCase()` on its ASCII fragment. -/
def jsToLower (s : String) : String :=
  String.mk (s.data.map Char.toLower)

/-- The header names of the CSV string: first line of the trimmed input,
split on commas, each header trimmed (`src/index.ts`, extract-data). -/
def headersOf (csvFile : String) : List String :=
  (jsSplit ',' ((jsSplit '\n' (jsTrim csvFile)).headD "")).map jsTrim

/-- The data rows of the CSV string: every line after the first, split on
commas, each cell trimmed (`src/index.ts`, extract-data). -/
def trimmedRowsOf (csvFile : String) : List (List String) :=
  ((jsSplit '\n' (jsTrim csvFile)).drop 1).map
    fun line => (jsSplit ',' line).map jsTrim

/-- The raw data rows of the CSV string, cells not trimmed: the source
row's verbatim cell values, used to compare the tool's output against the
tabular source. -/
def rawRowsOf (csvFile : String) : List (List String) :=
  ((jsSplit '\n' (jsTrim csvFile)).drop 1).map fun line => jsSplit ',' line

/-- The row-selection predicate of extract-data: the row's first cell,
trimmed and lowercased, equals the requested name, trimmed and
lowercased. -/
def rowMatchesKey (name : String) (row : List String) : Bool :=
  jsToLower (jsTrim (row.headD "")) = jsToLower (jsTrim name)

/-- Embedding of the row lookup of the extract-data handler
(`src/index.ts`): parse headers and rows, find the first row whose first
cell matches the name, and build the header-to-cell record (a missing cell
becomes the empty string, `selectedRow[index] ?? ""`). -/
def extractData (name csvFile : String) : Option (List (String × String)) :=
  match (trimmedRowsOf csvFile).find? (rowMatchesKey name) with
  | none => none
  | some selectedRow =>
    some ((headersOf csvFile).enum.map
      fun p => (p.2, selectedRow.getD p.1 ""))

/-- Rendering of the extracted record returned to the caller (the model of
`JSON.stringify(rowData)`). -/
def renderRecord (rowData : List (String × String)) : String :=
  String.intercalate ", " (rowData.map fun p => p.1 ++ ": " ++ p.2)

/-- Embedding of the extract-data tool handler (`src/index.ts`).  Its whole
body sits inside a `try`/`catch` that converts any error into a text
result, so the outcome is always `Except.ok` (an `Except.error` would model
an exception escaping the handler). -/
def extractDataHandler (name csvFile : String) : Except String String :=
  match extractData name csvFile with
  | none =>
    .ok ("Could not find a title with the name " ++ name ++
      ". Is it spelled correctly?")
  | some rowData => .ok (renderRecord rowData)

/-- Embedding of the create-presentation tool handler (`src/index.ts`).
The empty-name validation `throw` sits BEFORE the `try` block, so for an
empty company name the exception escapes the handler (`Except.error`); every
`initiateSlides` failure is caught and turned into a text result. -/
def createPresentationHandler (companyName : String)
    (createdId : Option String) (titleDoc : Document) (dateStr : String)
    (uid1 : String) (doc1 : Document) (uid2 : String) (doc2 : Document) :
    List Event × Except String String :=
  if companyName = "" then
    ([], .error "Missing or invalid input data for create-presentation")
  else
    let r := initiateSlides companyName createdId titleDoc dateStr
      uid1 doc1 uid2 doc2
    match r.2 with
    | .ok pid => (r.1, .ok ("Presentation ID: " ++ pid))
    | .error _ => (r.1, .ok "Failed to create presentation")

/-- Embedding of the add-custom-slide tool handler (`src/index.ts`): the
slide-type validation runs first and returns a text result without invoking
the composer; otherwise the composer runs and any error is caught and
turned into a text result. -/
def addCustomSlideHandler
    (slideTitle slideContent presentationId slideType uniqueID : String)
    (fetched : Document) : List Event × Except String String :=
  if slideType = "Paragraph" ∨ slideType = "Bullet" then
    let r := addCustomSlide slideTitle slideContent presentationId slideType
      uniqueID fetched
    match r.2 with
    | none => (r.1, .ok "Succesfully created a new custom slide!")
    | some _ => (r.1, .ok "There was an error creating a custom slide")
  else
    ([], .ok ("add-custom-slide: Invalid slideType parameter. " ++
      "You must pass in either Paragraph or Bullet as literal strings."))

/-- The document shape that Phase 2 of the composer rejects as a structure
error. -/
def brokenLastSlide (d : Document) : Prop :=
  d.slides = none ∨ lastSlideOf d = none ∨
    ∃ sl, lastSlideOf d = some sl ∧
      (sl.pageElements = none ∨ sl.pageElements = some [])

/-- A well-formed fetched document: one slide with two identified
placeholder elements. -/
def okSlide : Slide :=
  ⟨some [⟨some "TITLE_ID"⟩, ⟨some "BODY_ID"⟩]⟩

/-- A document whose only slide is `okSlide`. -/
def okDoc : Document := ⟨some [okSlide]⟩

/-- A slide with exactly one placeholder element. -/
def oneElementSlide : Slide := ⟨some [⟨some "ONLY_ID"⟩]⟩

/-- A document whose only slide is `oneElementSlide`. -/
def oneElementDoc : Document := ⟨some [oneElementSlide]⟩

/-- A document whose slide array is absent. -/
def emptyDoc : Document := ⟨none⟩

/-- Whether an outcome is a returned value rather than an escaped
exception. -/
def isOkResult {ε α : Type} : Except ε α → Bool
  | .ok _ => true
  | .error _ => false

end SlidesMCP

namespace SlidesMCP

theorem strFalsy_eq_false_iff (o : Option String) :
    strFalsy o = false ↔ ∃ s, o = some s ∧ s ≠ "" := by
  cases o <;> simp [strFalsy]

theorem addNewParagraphSlide_ok_shape (pid uniqueID title content : String)
    (fetched : Document) (calls : List ServiceCall)
    (h : addNewParagraphSlide (some pid) true uniqueID fetched title content =
      (calls, none)) :
    ∃ sl pe0 pe1 rest titleId bodyId,
      lastSlideOf fetched = some sl ∧
      sl.pageElements = some (pe0 :: pe1 :: rest) ∧
      pe0.objectId = some titleId ∧ pe1.objectId = some bodyId ∧
      titleId ≠ "" ∧ bodyId ≠ "" ∧
      calls =
        [ServiceCall.batchUpdate pid
          [Request.createSlide uniqueID "TITLE_AND_BODY"],
         ServiceCall.getPresentation pid,
         ServiceCall.batchUpdate pid
           [Request.insertText titleId title 0,
            Request.updateTextStyle titleId true "Times New Roman" 25 true,
            Request.insertText bodyId content 0]] := by
  unfold addNewParagraphSlide at h
  simp only [Bool.true_eq_false, if_false] at h
  obtain ⟨slides⟩ := fetched
  cases slides with
  | none => simp at h
  | some arr =>
    simp only at h
    cases harr : arr.getLast? with
    | none => rw [harr] at h; simp at h
    | some sl =>
      rw [harr] at h
      obtain ⟨pes⟩ := sl
      cases pes with
      | none => simp at h
      | some l =>
        match l with
        | [] => simp at h
        | [pe0] => simp at h
        | pe0 :: pe1 :: rest =>
          simp only at h
          by_cases hf : (strFalsy pe1.objectId || strFalsy pe0.objectId) = true
          · rw [if_pos hf] at h; simp at h
          · rw [if_neg hf] at h
            simp only [Bool.or_eq_true, not_or, Bool.not_eq_true] at hf
            obtain ⟨h1, h0⟩ := hf
            obtain ⟨b, hb, hbne⟩ := (strFalsy_eq_false_iff _).mp h1
            obtain ⟨t, ht, htne⟩ := (strFalsy_eq_false_iff _).mp h0
            refine ⟨⟨some (pe0 :: pe1 :: rest)⟩, pe0, pe1, rest, t, b, ?_, rfl,
              ht, hb, htne, hbne, ?_⟩
            · simp [lastSlideOf, harr]
            · simp only [Prod.mk.injEq] at h
              rw [← h.1]
              simp [ht, hb]

theorem addNewBulletSlide_ok_shape (pid uniqueID title content : String)
    (fetched : Document) (calls : List ServiceCall)
    (h : addNewBulletSlide (some pid) true uniqueID fetched title content =
      (calls, none)) :
    ∃ sl pe0 pe1 rest titleId bodyId,
      lastSlideOf fetched = some sl ∧
      sl.pageElements = some (pe0 :: pe1 :: rest) ∧
      pe0.objectId = some titleId ∧ pe1.objectId = some bodyId ∧
      titleId ≠ "" ∧ bodyId ≠ "" ∧
      calls =
        [ServiceCall.batchUpdate pid
          [Request.createSlide uniqueID "TITLE_AND_BODY"],
         ServiceCall.getPresentation pid,
         ServiceCall.batchUpdate pid
           [Request.insertText titleId title 0,
            Request.updateTextStyle titleId true "Times New Roman" 25 true,
            Request.insertText bodyId content 0,
            Request.createParagraphBullets bodyId true
              "BULLET_DISC_CIRCLE_SQUARE"]] := by
  unfold addNewBulletSlide at h
  simp only [Bool.true_eq_false, if_false] at h
  obtain ⟨slides⟩ := fetched
  cases slides with
  | none => simp at h
  | some arr =>
    simp only at h
    cases harr : arr.getLast? with
    | none => rw [harr] at h; simp at h
    | some sl =>
      rw [harr] at h
      obtain ⟨pes⟩ := sl
      cases pes with
      | none => simp at h
      | some l =>
        match l with
        | [] => simp at h
        | [pe0] => simp at h
        | pe0 :: pe1 :: rest =>
          simp only at h
          by_cases hf : (strFalsy pe1.objectId || strFalsy pe0.objectId) = true
          · rw [if_pos hf] at h; simp at h
          · rw [if_neg hf] at h
            simp only [Bool.or_eq_true, not_or, Bool.not_eq_true] at hf
            obtain ⟨h1, h0⟩ := hf
            obtain ⟨b, hb, hbne⟩ := (strFalsy_eq_false_iff _).mp h1
            obtain ⟨t, ht, htne⟩ := (strFalsy_eq_false_iff _).mp h0
            refine ⟨⟨some (pe0 :: pe1 :: rest)⟩, pe0, pe1, rest, t, b, ?_, rfl,
              ht, hb, htne, hbne, ?_⟩
            · simp [lastSlideOf, harr]
            · simp only [Prod.mk.injEq] at h
              rw [← h.1]
              simp [ht, hb]

theorem addNewParagraphSlide_structure_iff (pid uniqueID title content : String)
    (fetched : Document) :
    (∃ e, (addNewParagraphSlide (some pid) true uniqueID fetched
        title content).2 = some e ∧ e.isStructure = true) ↔
      brokenLastSlide fetched := by
  unfold addNewParagraphSlide brokenLastSlide
  simp only [Bool.true_eq_false, if_false]
  obtain ⟨slides⟩ := fetched
  cases slides with
  | none => simp [lastSlideOf, SlideError.isStructure]
  | some arr =>
    cases harr : arr.getLast? with
    | none => simp [lastSlideOf, harr, SlideError.isStructure]
    | some sl =>
      obtain ⟨pes⟩ := sl
      cases pes with
      | none => simp [lastSlideOf, harr, SlideError.isStructure]
      | some l =>
        match l with
        | [] => simp [lastSlideOf, harr, SlideError.isStructure]
        | [pe0] => simp [lastSlideOf, harr, SlideError.isStructure]
        | pe0 :: pe1 :: rest =>
          by_cases hf : (strFalsy pe1.objectId || strFalsy pe0.objectId) = true
          · simp [lastSlideOf, harr, SlideError.isStructure, hf]
          · simp [lastSlideOf, harr, SlideError.isStructure, hf]
end SlidesMCP

namespace SlidesMCP

theorem addNewBulletSlide_structure_iff (pid uniqueID title content : String)
    (fetched : Document) :
    (∃ e, (addNewBulletSlide (some pid) true uniqueID fetched
        title content).2 = some e ∧ e.isStructure = true) ↔
      brokenLastSlide fetched := by
  unfold addNewBulletSlide brokenLastSlide
  simp only [Bool.true_eq_false, if_false]
  obtain ⟨slides⟩ := fetched
  cases slides with
  | none => simp [lastSlideOf, SlideError.isStructure]
  | some arr =>
    cases harr : arr.getLast? with
    | none => simp [lastSlideOf, harr, SlideError.isStructure]
    | some sl =>
      obtain ⟨pes⟩ := sl
      cases pes with
      | none => simp [lastSlideOf, harr, SlideError.isStructure]
      | some l =>
        match l with
        | [] => simp [lastSlideOf, harr, SlideError.isStructure]
        | [pe0] => simp [lastSlideOf, harr, SlideError.isStructure]
        | pe0 :: pe1 :: rest =>
          by_cases hf : (strFalsy pe1.objectId || strFalsy pe0.objectId) = true
          · simp [lastSlideOf, harr, SlideError.isStructure, hf]
          · simp [lastSlideOf, harr, SlideError.isStructure, hf]

theorem addNewParagraphSlide_single_element
    (pid uniqueID title content : String) (fetched : Document)
    (pe0 : PageElement) (sl : Slide)
    (hlast : lastSlideOf fetched = some sl)
    (hpe : sl.pageElements = some [pe0]) :
    (addNewParagraphSlide (some pid) true uniqueID fetched title content).2 =
      some SlideError.typeError := by
  obtain ⟨slides⟩ := fetched
  cases slides with
  | none => simp [lastSlideOf] at hlast
  | some arr =>
    simp only [lastSlideOf, Option.bind] at hlast
    unfold addNewParagraphSlide
    simp [hlast, hpe]

theorem addNewBulletSlide_single_element
    (pid uniqueID title content : String) (fetched : Document)
    (pe0 : PageElement) (sl : Slide)
    (hlast : lastSlideOf fetched = some sl)
    (hpe : sl.pageElements = some [pe0]) :
    (addNewBulletSlide (some pid) true uniqueID fetched title content).2 =
      some SlideError.typeError := by
  obtain ⟨slides⟩ := fetched
  cases slides with
  | none => simp [lastSlideOf] at hlast
  | some arr =>
    simp only [lastSlideOf, Option.bind] at hlast
    unfold addNewBulletSlide
    simp [hlast, hpe]

theorem createPresentation_ok_shape (companyName dateStr : String)
    (createdId : Option String) (fetched : Document)
    (events : List Event) (pid : String)
    (h : createPresentation companyName createdId fetched dateStr =
      (events, .ok pid)) :
    createdId = some pid ∧ pid ≠ "" ∧
    ∃ sl pe0 pe1 rest titleId subtitleId,
      firstSlideOf fetched = some sl ∧
      sl.pageElements = some (pe0 :: pe1 :: rest) ∧
      pe0.objectId = some titleId ∧ pe1.objectId = some subtitleId ∧
      titleId ≠ "" ∧ subtitleId ≠ "" ∧
      events =
        [Event.service (.create (companyName ++ " Slide Deck")),
         Event.setPresentationID pid,
         Event.service (.getPresentation pid),
         Event.service (.batchUpdate pid
           [Request.insertText titleId companyName 0,
            Request.insertText subtitleId ("Created: " ++ dateStr) 0])] := by
  unfold createPresentation at h
  by_cases hc : strFalsy createdId = true
  · rw [if_pos hc] at h; simp at h
  · rw [if_neg hc] at h
    obtain ⟨cid, hcid, hcidne⟩ :=
      (strFalsy_eq_false_iff _).mp (Bool.not_eq_true _ ▸ hc)
    subst hcid
    simp only [Option.getD_some] at h
    obtain ⟨slides⟩ := fetched
    cases slides with
    | none => simp at h
    | some arr =>
      match arr with
      | [] => simp at h
      | firstSlide :: tl =>
        obtain ⟨pes⟩ := firstSlide
        cases pes with
        | none => simp at h
        | some l =>
          match l with
          | [] => simp at h
          | [pe0] => simp at h
          | pe0 :: pe1 :: rest =>
            simp only at h
            by_cases hf : (strFalsy pe1.objectId || strFalsy pe0.objectId) = true
            · rw [if_pos hf] at h; simp at h
            · rw [if_neg hf] at h
              simp only [Bool.or_eq_true, not_or, Bool.not_eq_true] at hf
              obtain ⟨h1, h0⟩ := hf
              obtain ⟨s, hs, hsne⟩ := (strFalsy_eq_false_iff _).mp h1
              obtain ⟨t, ht, htne⟩ := (strFalsy_eq_false_iff _).mp h0
              simp only [Prod.mk.injEq, List.append_assoc] at h
              obtain ⟨hev, hpid⟩ := h
              cases hpid
              refine ⟨rfl, hcidne, ⟨some (pe0 :: pe1 :: rest)⟩, pe0, pe1, rest,
                t, s, ?_, rfl, ht, hs, htne, hsne, ?_⟩
              · simp [firstSlideOf]
              · rw [← hev]; simp [ht, hs]
end SlidesMCP

namespace SlidesMCP

theorem createPresentation_single_element (companyName dateStr pid : String)
    (hpid : pid ≠ "") (fetched : Document) (pe0 : PageElement) (sl : Slide)
    (hfirst : firstSlideOf fetched = some sl)
    (hpe : sl.pageElements = some [pe0]) :
    (createPresentation companyName (some pid) fetched dateStr).2 =
      .error CreateError.typeError := by
  unfold createPresentation
  rw [if_neg (by simp [strFalsy, hpid])]
  obtain ⟨slides⟩ := fetched
  cases slides with
  | none => simp [firstSlideOf] at hfirst
  | some arr =>
    match arr with
    | [] => simp [firstSlideOf] at hfirst
    | s0 :: tl =>
      simp only [firstSlideOf, Option.bind, List.head?, Option.some.injEq] at hfirst
      subst hfirst
      simp [hpe]

theorem docServiceCallsOf_append (l1 l2 : List Event) :
    docServiceCallsOf (l1 ++ l2) =
      docServiceCallsOf l1 ++ docServiceCallsOf l2 := by
  simp [docServiceCallsOf]

theorem docServiceCallsOf_map_service (calls : List ServiceCall) :
    docServiceCallsOf (calls.map Event.service) = calls := by
  induction calls with
  | nil => rfl
  | cons c t ih => simp [docServiceCallsOf, List.filterMap_cons] at ih ⊢; exact ih

theorem addSlideArgsOf_append (l1 l2 : List Event) :
    addSlideArgsOf (l1 ++ l2) = addSlideArgsOf l1 ++ addSlideArgsOf l2 := by
  simp [addSlideArgsOf]

theorem addSlideArgsOf_map_service (calls : List ServiceCall) :
    addSlideArgsOf (calls.map Event.service) = [] := by
  induction calls with
  | nil => rfl
  | cons c t ih => simp only [addSlideArgsOf, List.map_cons, List.filterMap_cons] at ih ⊢; exact ih

theorem addSlideArgsOf_createPresentation (companyName dateStr : String)
    (createdId : Option String) (fetched : Document) :
    addSlideArgsOf (createPresentation companyName createdId fetched dateStr).1 =
      [] := by
  unfold createPresentation
  by_cases hc : strFalsy createdId = true
  · simp [hc, addSlideArgsOf]
  · rw [if_neg hc]
    obtain ⟨slides⟩ := fetched
    cases slides with
    | none => simp [addSlideArgsOf]
    | some arr =>
      match arr with
      | [] => simp [addSlideArgsOf]
      | s0 :: tl =>
        obtain ⟨pes⟩ := s0
        cases pes with
        | none => simp [addSlideArgsOf]
        | some l =>
          match l with
          | [] => simp [addSlideArgsOf]
          | [pe0] => simp [addSlideArgsOf]
          | pe0 :: pe1 :: rest =>
            by_cases hf : (strFalsy pe1.objectId || strFalsy pe0.objectId) = true
            · simp [hf, addSlideArgsOf]
            · simp [hf, addSlideArgsOf]

theorem addSlideArgsOf_addCustomSlide
    (title content presentationId slideType uniqueID : String)
    (fetched : Document) :
    addSlideArgsOf (addCustomSlide title content presentationId slideType
      uniqueID fetched).1 = [] := by
  unfold addCustomSlide
  by_cases hp : presentationId = ""
  · simp [hp, addSlideArgsOf]
  · rw [if_neg hp]
    by_cases h1 : slideType = "Paragraph"
    · simp [h1, addSlideArgsOf_append, addSlideArgsOf_map_service, addSlideArgsOf]
    · rw [if_neg h1]
      by_cases h2 : slideType = "Bullet"
      · simp [h2, addSlideArgsOf_append, addSlideArgsOf_map_service, addSlideArgsOf]
      · simp [h2, addSlideArgsOf]

end SlidesMCP

namespace SlidesMCP

theorem find?_first {α : Type} (p : α → Bool) (l : List α) :
    ∀ (i : Nat) (hi : i < l.length),
      (∀ j (hj : j < i), p (l.get ⟨j, Nat.lt_trans hj hi⟩) = false) →
      p (l.get ⟨i, hi⟩) = true →
      l.find? p = some (l.get ⟨i, hi⟩) := by
  induction l with
  | nil => intro i hi; exact absurd hi (Nat.not_lt_zero i)
  | cons a t ih =>
    intro i hi hbefore hp
    cases i with
    | zero =>
      simp only [List.get] at hp ⊢
      simp [List.find?_cons, hp]
    | succ n =>
      have ha : p a = false := hbefore 0 (Nat.succ_pos n)
      simp only [List.get] at hp ⊢
      rw [List.find?_cons, ha]
      exact ih n (Nat.lt_of_succ_lt_succ hi)
        (fun j hj => hbefore (j + 1) (Nat.succ_lt_succ hj)) hp

theorem find?_map_eq {α β : Type} (f : α → β) (p : β → Bool) (l : List α) :
    (l.map f).find? p = (l.find? (fun a => p (f a))).map f := by
  induction l with
  | nil => rfl
  | cons a t ih =>
    by_cases h : p (f a) <;> simp [List.find?_cons, h, ih]

theorem trimmedRowsOf_eq_map (csvFile : String) :
    trimmedRowsOf csvFile = (rawRowsOf csvFile).map (List.map jsTrim) := by
  simp [trimmedRowsOf, rawRowsOf, List.map_map]
  rfl

theorem jsTrim_empty : jsTrim "" = "" := rfl

theorem getD_map_jsTrim (row : List String) (i : Nat) :
    (row.map jsTrim).getD i "" = jsTrim (row.getD i "") := by
  induction row generalizing i with
  | nil => simp [List.getD, jsTrim_empty]
  | cons a t ih =>
    cases i with
    | zero => simp [List.getD]
    | succ n => simpa [List.getD] using ih n

end SlidesMCP

namespace SlidesMCP

/-- C1: for every slide composition call with a recognized style, Phase 3
issues one mutation batch whose operations appear in the fixed order —
insert the title at index 0 of the title placeholder, style the whole title
range bold, Times New Roman 25pt, insert the body at index 0 of the body
placeholder, and a bullet request (fixed preset, whole range) present iff
the style is Bullet. -/
theorem C1_phase3_fixed_order
    (title content presentationId slideType uniqueID : String)
    (fetched : Document) (events : List Event)
    (hty : slideType = "Paragraph" ∨ slideType = "Bullet")
    (h : addCustomSlide title content presentationId slideType uniqueID
      fetched = (events, none)) :
    ∃ titleId bodyId,
      docServiceCallsOf events =
        [ServiceCall.batchUpdate presentationId
           [Request.createSlide uniqueID "TITLE_AND_BODY"],
         ServiceCall.getPresentation presentationId,
         ServiceCall.batchUpdate presentationId
           ([Request.insertText titleId title 0,
             Request.updateTextStyle titleId true "Times New Roman" 25 true,
             Request.insertText bodyId content 0] ++
            (if slideType = "Bullet" then
              [Request.createParagraphBullets bodyId true
                "BULLET_DISC_CIRCLE_SQUARE"]
             else []))] := by
  unfold addCustomSlide at h
  by_cases hp : presentationId = ""
  · simp [hp] at h
  · rw [if_neg hp] at h
    rcases hty with hty | hty
    · subst hty
      rw [if_pos rfl] at h
      simp only [Prod.mk.injEq] at h
      obtain ⟨hev, hres⟩ := h
      have hpair : addNewParagraphSlide (some presentationId) true uniqueID
          fetched title content =
          ((addNewParagraphSlide (some presentationId) true uniqueID fetched
            title content).1, none) := by
        rw [← hres]
      obtain ⟨sl, pe0, pe1, rest, t, b, -, -, -, -, -, -, hcalls⟩ :=
        addNewParagraphSlide_ok_shape _ _ _ _ _ _ hpair
      refine ⟨t, b, ?_⟩
      rw [← hev, hcalls]
      simp [docServiceCallsOf_append, docServiceCallsOf_map_service,
        docServiceCallsOf]
    · subst hty
      rw [if_neg (by decide), if_pos rfl] at h
      simp only [Prod.mk.injEq] at h
      obtain ⟨hev, hres⟩ := h
      have hpair : addNewBulletSlide (some presentationId) true uniqueID
          fetched title content =
          ((addNewBulletSlide (some presentationId) true uniqueID fetched
            title content).1, none) := by
        rw [← hres]
      obtain ⟨sl, pe0, pe1, rest, t, b, -, -, -, -, -, -, hcalls⟩ :=
        addNewBulletSlide_ok_shape _ _ _ _ _ _ hpair
      refine ⟨t, b, ?_⟩
      rw [← hev, hcalls]
      simp [docServiceCallsOf_append, docServiceCallsOf_map_service,
        docServiceCallsOf]

theorem C1_witness :
    ∃ titleId bodyId,
      docServiceCallsOf
        (addCustomSlide "T" "C" "p" "Bullet" "u" okDoc).1 =
        [ServiceCall.batchUpdate "p"
           [Request.createSlide "u" "TITLE_AND_BODY"],
         ServiceCall.getPresentation "p",
         ServiceCall.batchUpdate "p"
           ([Request.insertText titleId "T" 0,
             Request.updateTextStyle titleId true "Times New Roman" 25 true,
             Request.insertText bodyId "C" 0] ++
            (if ("Bullet" : String) = "Bullet" then
              [Request.createParagraphBullets bodyId true
                "BULLET_DISC_CIRCLE_SQUARE"]
             else []))] :=
  C1_phase3_fixed_order "T" "C" "p" "Bullet" "u" okDoc
    (addCustomSlide "T" "C" "p" "Bullet" "u" okDoc).1
    (Or.inr rfl) (by decide)

end SlidesMCP

namespace SlidesMCP

/-- C2: Phase 2 resolves the slide just created as the LAST slide of the
re-fetched document, and (for both composer variants) the call fails with a
structure error exactly when the slide list cannot be retrieved, the
resolved last slide is absent, or it has no page elements; on success the
populate batch addresses the placeholders of that last slide. -/
theorem C2_last_slide_discovery (pid uniqueID title content : String)
    (fetched : Document) :
    ((∃ e, (addNewParagraphSlide (some pid) true uniqueID fetched title
        content).2 = some e ∧ e.isStructure = true) ↔
      brokenLastSlide fetched) ∧
    ((∃ e, (addNewBulletSlide (some pid) true uniqueID fetched title
        content).2 = some e ∧ e.isStructure = true) ↔
      brokenLastSlide fetched) ∧
    (∀ calls, addNewParagraphSlide (some pid) true uniqueID fetched title
        content = (calls, none) →
      ∃ sl pe0 pe1 rest, lastSlideOf fetched = some sl ∧
        sl.pageElements = some (pe0 :: pe1 :: rest) ∧
        calls.getLast? = some (ServiceCall.batchUpdate pid
          [Request.insertText (pe0.objectId.getD "") title 0,
           Request.updateTextStyle (pe0.objectId.getD "") true
             "Times New Roman" 25 true,
           Request.insertText (pe1.objectId.getD "") content 0])) ∧
    (∀ calls, addNewBulletSlide (some pid) true uniqueID fetched title
        content = (calls, none) →
      ∃ sl pe0 pe1 rest, lastSlideOf fetched = some sl ∧
        sl.pageElements = some (pe0 :: pe1 :: rest) ∧
        calls.getLast? = some (ServiceCall.batchUpdate pid
          [Request.insertText (pe0.objectId.getD "") title 0,
           Request.updateTextStyle (pe0.objectId.getD "") true
             "Times New Roman" 25 true,
           Request.insertText (pe1.objectId.getD "") content 0,
           Request.createParagraphBullets (pe1.objectId.getD "") true
             "BULLET_DISC_CIRCLE_SQUARE"])) := by
  refine ⟨addNewParagraphSlide_structure_iff pid uniqueID title content fetched,
    addNewBulletSlide_structure_iff pid uniqueID title content fetched,
    ?_, ?_⟩
  · intro calls h
    obtain ⟨sl, pe0, pe1, rest, t, b, hsl, hpes, ht, hb, -, -, hcalls⟩ :=
      addNewParagraphSlide_ok_shape _ _ _ _ _ _ h
    refine ⟨sl, pe0, pe1, rest, hsl, hpes, ?_⟩
    rw [hcalls]
    simp [ht, hb]
  · intro calls h
    obtain ⟨sl, pe0, pe1, rest, t, b, hsl, hpes, ht, hb, -, -, hcalls⟩ :=
      addNewBulletSlide_ok_shape _ _ _ _ _ _ h
    refine ⟨sl, pe0, pe1, rest, hsl, hpes, ?_⟩
    rw [hcalls]
    simp [ht, hb]

theorem C2_witness :
    (∃ e, (addNewParagraphSlide (some "p") true "u" emptyDoc "T"
        "C").2 = some e ∧ e.isStructure = true) ∧
    (∃ sl pe0 pe1 rest, lastSlideOf okDoc = some sl ∧
      sl.pageElements = some (pe0 :: pe1 :: rest) ∧
      (addNewParagraphSlide (some "p") true "u" okDoc "T" "C").1.getLast? =
        some (ServiceCall.batchUpdate "p"
          [Request.insertText (pe0.objectId.getD "") "T" 0,
           Request.updateTextStyle (pe0.objectId.getD "") true
             "Times New Roman" 25 true,
           Request.insertText (pe1.objectId.getD "") "C" 0])) :=
  ⟨(C2_last_slide_discovery "p" "u" "T" "C" emptyDoc).1.mpr (Or.inl rfl),
   (C2_last_slide_discovery "p" "u" "T" "C" okDoc).2.2.1
     (addNewParagraphSlide (some "p") true "u" okDoc "T" "C").1 (by decide)⟩

/-- C3: an unrecognized slide style is rejected by the tool handler with a
validation message before any work happens (empty event trace), and even
the composer itself, called directly with such a style, issues zero
Document Service calls and throws a validation error. -/
theorem C3_invalid_style_rejected
    (slideTitle slideContent presentationId slideType uniqueID : String)
    (fetched : Document)
    (h1 : slideType ≠ "Paragraph") (h2 : slideType ≠ "Bullet") :
    addCustomSlideHandler slideTitle slideContent presentationId slideType
        uniqueID fetched =
      ([], .ok ("add-custom-slide: Invalid slideType parameter. " ++
        "You must pass in either Paragraph or Bullet as literal strings.")) ∧
    docServiceCallsOf (addCustomSlide slideTitle slideContent presentationId
        slideType uniqueID fetched).1 = [] ∧
    (∃ e, (addCustomSlide slideTitle slideContent presentationId slideType
        uniqueID fetched).2 = some e ∧
      (e = SlideError.invalidSlideType ∨
       e = SlideError.invalidPresentationId)) := by
  refine ⟨?_, ?_, ?_⟩
  · unfold addCustomSlideHandler
    rw [if_neg (by simp [h1, h2])]
  · unfold addCustomSlide
    by_cases hp : presentationId = ""
    · simp [hp, docServiceCallsOf]
    · simp [hp, h1, h2, docServiceCallsOf]
  · unfold addCustomSlide
    by_cases hp : presentationId = ""
    · simp [hp]
    · simp [hp, h1, h2]

theorem C3_witness :
    addCustomSlideHandler "T" "C" "p" "Banana" "u" okDoc =
      ([], .ok ("add-custom-slide: Invalid slideType parameter. " ++
        "You must pass in either Paragraph or Bullet as literal strings.")) ∧
    docServiceCallsOf (addCustomSlide "T" "C" "p" "Banana" "u" okDoc).1 =
      [] ∧
    (∃ e, (addCustomSlide "T" "C" "p" "Banana" "u" okDoc).2 = some e ∧
      (e = SlideError.invalidSlideType ∨
       e = SlideError.invalidPresentationId)) :=
  C3_invalid_style_rejected "T" "C" "p" "Banana" "u" okDoc
    (by decide) (by decide)

/-- C9: when the resolved slide has exactly one page element, the
no-elements guard passes (it rejects only an empty element list) and the
read of the element at index 1 is out of bounds — modelled by `typeError`,
a runtime crash distinct from every structure-error branch — in both
composer variants and in the bootstrapper. -/
theorem C9_single_element_out_of_bounds
    (pid uniqueID title content companyName dateStr : String)
    (hpid : pid ≠ "")
    (fetched : Document) (sl : Slide) (pe0 : PageElement)
    (hlast : lastSlideOf fetched = some sl)
    (hpe : sl.pageElements = some [pe0])
    (firstDoc : Document) (sl2 : Slide) (pe0b : PageElement)
    (hfirst : firstSlideOf firstDoc = some sl2)
    (hpe2 : sl2.pageElements = some [pe0b]) :
    ([pe0] : List PageElement) ≠ [] ∧
    (addNewParagraphSlide (some pid) true uniqueID fetched title
      content).2 = some SlideError.typeError ∧
    (addNewBulletSlide (some pid) true uniqueID fetched title
      content).2 = some SlideError.typeError ∧
    SlideError.typeError.isStructure = false ∧
    (createPresentation companyName (some pid) firstDoc dateStr).2 =
      .error CreateError.typeError ∧
    CreateError.typeError.isStructure = false := by
  refine ⟨by simp, ?_, ?_, rfl, ?_, rfl⟩
  · exact addNewParagraphSlide_single_element pid uniqueID title content
      fetched pe0 sl hlast hpe
  · exact addNewBulletSlide_single_element pid uniqueID title content
      fetched pe0 sl hlast hpe
  · exact createPresentation_single_element companyName dateStr pid hpid
      firstDoc pe0b sl2 hfirst hpe2

theorem C9_witness :
    ([PageElement.mk (some "ONLY_ID")] : List PageElement) ≠ [] ∧
    (addNewParagraphSlide (some "p") true "u" oneElementDoc "T"
      "C").2 = some SlideError.typeError ∧
    (addNewBulletSlide (some "p") true "u" oneElementDoc "T"
      "C").2 = some SlideError.typeError ∧
    SlideError.typeError.isStructure = false ∧
    (createPresentation "Acme" (some "p") oneElementDoc "2025-01-01").2 =
      .error CreateError.typeError ∧
    CreateError.typeError.isStructure = false :=
  C9_single_element_out_of_bounds "p" "u" "T" "C" "Acme" "2025-01-01"
    (by decide) oneElementDoc oneElementSlide (PageElement.mk (some "ONLY_ID"))
    (by decide) (by decide) oneElementDoc oneElementSlide
    (PageElement.mk (some "ONLY_ID")) (by decide) (by decide)

end SlidesMCP

namespace SlidesMCP

/-- C4: a successful `createPresentation` issues exactly one populate batch
holding two insert-text requests — the title into placeholder 0 and
`Created: ` followed by the date into placeholder 1, both at insertion
index 0 — and the call fails when the service returns no id, the document
has no slides, or the first slide has no page elements. -/
theorem C4_bootstrap_batch (companyName dateStr : String)
    (createdId : Option String) (fetched : Document)
    (events : List Event) (res : Except CreateError String)
    (h : createPresentation companyName createdId fetched dateStr =
      (events, res)) :
    (∀ pid, res = .ok pid →
      ∃ sl pe0 pe1 rest titleId subtitleId,
        firstSlideOf fetched = some sl ∧
        sl.pageElements = some (pe0 :: pe1 :: rest) ∧
        pe0.objectId = some titleId ∧ pe1.objectId = some subtitleId ∧
        docServiceCallsOf events =
          [ServiceCall.create (companyName ++ " Slide Deck"),
           ServiceCall.getPresentation pid,
           ServiceCall.batchUpdate pid
             [Request.insertText titleId companyName 0,
              Request.insertText subtitleId ("Created: " ++ dateStr) 0]]) ∧
    (strFalsy createdId = true →
      res = .error CreateError.nullPresentationId) ∧
    (firstSlideOf fetched = none → ∀ pid, res ≠ .ok pid) ∧
    (∀ sl, firstSlideOf fetched = some sl →
      sl.pageElements = none ∨ sl.pageElements = some [] →
      ∀ pid, res ≠ .ok pid) := by
  refine ⟨?_, ?_, ?_, ?_⟩
  · intro pid hres
    subst hres
    obtain ⟨-, -, sl, pe0, pe1, rest, t, s, hsl, hpes, ht, hs, -, -, hev⟩ :=
      createPresentation_ok_shape _ _ _ _ _ _ h
    refine ⟨sl, pe0, pe1, rest, t, s, hsl, hpes, ht, hs, ?_⟩
    rw [hev]
    simp [docServiceCallsOf]
  · intro hf
    unfold createPresentation at h
    rw [if_pos hf] at h
    simp only [Prod.mk.injEq] at h
    exact h.2.symm
  · intro hnone pid hres
    subst hres
    obtain ⟨-, -, sl, pe0, pe1, rest, t, s, hsl, -, -, -, -, -, -⟩ :=
      createPresentation_ok_shape _ _ _ _ _ _ h
    rw [hnone] at hsl
    exact Option.noConfusion hsl
  · intro sl hsl hpe pid hres
    subst hres
    obtain ⟨-, -, sl2, pe0, pe1, rest, t, s, hsl2, hpes, -, -, -, -, -⟩ :=
      createPresentation_ok_shape _ _ _ _ _ _ h
    rw [hsl] at hsl2
    obtain rfl : sl = sl2 := Option.some.inj hsl2
    rcases hpe with hpe | hpe <;> rw [hpe] at hpes <;> simp at hpes

theorem C4_witness :
    ∃ sl pe0 pe1 rest titleId subtitleId,
      firstSlideOf okDoc = some sl ∧
      sl.pageElements = some (pe0 :: pe1 :: rest) ∧
      pe0.objectId = some titleId ∧ pe1.objectId = some subtitleId ∧
      docServiceCallsOf
        (createPresentation "Acme" (some "p") okDoc "2025-01-01").1 =
        [ServiceCall.create ("Acme" ++ " Slide Deck"),
         ServiceCall.getPresentation "p",
         ServiceCall.batchUpdate "p"
           [Request.insertText titleId "Acme" 0,
            Request.insertText subtitleId ("Created: " ++ "2025-01-01") 0]] :=
  (C4_bootstrap_batch "Acme" "2025-01-01" (some "p") okDoc
    (createPresentation "Acme" (some "p") okDoc "2025-01-01").1
    (createPresentation "Acme" (some "p") okDoc "2025-01-01").2
    rfl).1 "p" (by rfl)

end SlidesMCP

namespace SlidesMCP

/-- C5: a successful orchestrator run returns a non-empty presentation id,
and a `setPresentationID` write of that id occurs strictly before the first
slide-composer invocation in the event trace. -/
theorem C5_id_recorded_before_slides (companyName dateStr uid1 uid2 : String)
    (createdId : Option String) (titleDoc doc1 doc2 : Document)
    (events : List Event) (pid : String)
    (h : initiateSlides companyName createdId titleDoc dateStr uid1 doc1 uid2
      doc2 = (events, .ok pid)) :
    pid ≠ "" ∧
    Event.setPresentationID pid ∈
      events.takeWhile (fun e => e.isAddSlide = false) := by
  simp only [initiateSlides] at h
  split at h
  · simp at h
  next newId heq =>
    by_cases hz : newId = ""
    · rw [if_pos hz] at h
      simp at h
    · rw [if_neg hz] at h
      split at h
      · simp at h
      next heq2 =>
        split at h
        · simp at h
        next heq3 =>
          simp only [Prod.mk.injEq] at h
          obtain ⟨hev, hpid⟩ := h
          injection hpid with hpid
          subst hpid
          have hpair : createPresentation companyName createdId titleDoc
              dateStr =
              ((createPresentation companyName createdId titleDoc dateStr).1,
                Except.ok newId) := by
            rw [← heq]
          obtain ⟨-, -, sl, pe0, pe1, rest, t, s, -, -, -, -, -, -, hcp⟩ :=
            createPresentation_ok_shape _ _ _ _ _ _ hpair
          refine ⟨hz, ?_⟩
          rw [← hev, hcp]
          simp [List.takeWhile, Event.isAddSlide]

theorem C5_witness :
    ("p" : String) ≠ "" ∧
    Event.setPresentationID "p" ∈
      (initiateSlides "Acme" (some "p") okDoc "2025-01-01" "u1" okDoc "u2"
        okDoc).1.takeWhile (fun e => e.isAddSlide = false) :=
  C5_id_recorded_before_slides "Acme" "2025-01-01" "u1" "u2" (some "p")
    okDoc okDoc okDoc
    (initiateSlides "Acme" (some "p") okDoc "2025-01-01" "u1" okDoc "u2"
      okDoc).1 "p" (by rfl)

end SlidesMCP

namespace SlidesMCP

theorem addSlideArgsOf_nil : addSlideArgsOf [] = [] := rfl

theorem addSlideArgsOf_cons_auth (l : List Event) :
    addSlideArgsOf (Event.setAuthToken :: l) = addSlideArgsOf l := rfl

theorem addSlideArgsOf_cons_setID (i : String) (l : List Event) :
    addSlideArgsOf (Event.setPresentationID i :: l) = addSlideArgsOf l := rfl

theorem addSlideArgsOf_cons_service (c : ServiceCall) (l : List Event) :
    addSlideArgsOf (Event.service c :: l) = addSlideArgsOf l := rfl

theorem addSlideArgsOf_cons_inv (t c p s : String) (l : List Event) :
    addSlideArgsOf (Event.addSlideInvoked t c p s :: l) =
      (t, c, p, s) :: addSlideArgsOf l := rfl

/-- C6: every slide-composer invocation the orchestrator issues — including
the step that prepares the paragraph title and content — carries the bullet
slide title, the bullet slide content and the `"Bullet"` style, so the two
pre-set invocations of a successful run receive identical arguments and
differ from the prepared paragraph content. -/
theorem C6_duplicated_invocation (companyName dateStr uid1 uid2 : String)
    (createdId : Option String) (titleDoc doc1 doc2 : Document)
    (events : List Event) (res : Except InitError String)
    (h : initiateSlides companyName createdId titleDoc dateStr uid1 doc1 uid2
      doc2 = (events, res)) :
    (∃ pid, ∀ x ∈ addSlideArgsOf events,
      x = (preSetBulletTitle, preSetBulletContent, pid, "Bullet")) ∧
    (∀ x ∈ addSlideArgsOf events, ∀ y ∈ addSlideArgsOf events, x = y) ∧
    preSetBulletTitle = preSetParagraphTitle ∧
    preSetBulletContent ≠ preSetParagraphContent ∧
    (∀ pid, res = .ok pid → addSlideArgsOf events =
      [(preSetBulletTitle, preSetBulletContent, pid, "Bullet"),
       (preSetBulletTitle, preSetBulletContent, pid, "Bullet")]) := by
  simp only [initiateSlides] at h
  split at h
  · simp only [Prod.mk.injEq] at h
    obtain ⟨hev, hres⟩ := h
    subst hev
    subst hres
    refine ⟨⟨"", ?_⟩, ?_, rfl, by decide, ?_⟩
    · simp [addSlideArgsOf_append, addSlideArgsOf_cons_auth,
        addSlideArgsOf_nil, addSlideArgsOf_createPresentation]
    · simp [addSlideArgsOf_append, addSlideArgsOf_cons_auth,
        addSlideArgsOf_nil, addSlideArgsOf_createPresentation]
    · intro pid hok
      exact absurd hok (by simp)
  next newId heq =>
    by_cases hz : newId = ""
    · rw [if_pos hz] at h
      simp only [Prod.mk.injEq] at h
      obtain ⟨hev, hres⟩ := h
      subst hev
      subst hres
      refine ⟨⟨"", ?_⟩, ?_, rfl, by decide, ?_⟩
      · simp [addSlideArgsOf_append, addSlideArgsOf_cons_auth,
          addSlideArgsOf_cons_setID, addSlideArgsOf_nil,
          addSlideArgsOf_createPresentation]
      · simp [addSlideArgsOf_append, addSlideArgsOf_cons_auth,
          addSlideArgsOf_cons_setID, addSlideArgsOf_nil,
          addSlideArgsOf_createPresentation]
      · intro pid hok
        exact absurd hok (by simp)
    · rw [if_neg hz] at h
      split at h
      · simp only [Prod.mk.injEq] at h
        obtain ⟨hev, hres⟩ := h
        subst hev
        subst hres
        refine ⟨⟨newId, ?_⟩, ?_, rfl, by decide, ?_⟩
        · simp [addSlideArgsOf_append, addSlideArgsOf_cons_auth,
            addSlideArgsOf_cons_setID, addSlideArgsOf_cons_inv,
            addSlideArgsOf_nil, addSlideArgsOf_createPresentation,
            addSlideArgsOf_addCustomSlide]
        · simp [addSlideArgsOf_append, addSlideArgsOf_cons_auth,
            addSlideArgsOf_cons_setID, addSlideArgsOf_cons_inv,
            addSlideArgsOf_nil, addSlideArgsOf_createPresentation,
            addSlideArgsOf_addCustomSlide]
        · intro pid hok
          exact absurd hok (by simp)
      next heq2 =>
        split at h
        · simp only [Prod.mk.injEq] at h
          obtain ⟨hev, hres⟩ := h
          subst hev
          subst hres
          refine ⟨⟨newId, ?_⟩, ?_, rfl, by decide, ?_⟩
          · simp [addSlideArgsOf_append, addSlideArgsOf_cons_auth,
              addSlideArgsOf_cons_setID, addSlideArgsOf_cons_inv,
              addSlideArgsOf_nil, addSlideArgsOf_createPresentation,
              addSlideArgsOf_addCustomSlide]
          · simp [addSlideArgsOf_append, addSlideArgsOf_cons_auth,
              addSlideArgsOf_cons_setID, addSlideArgsOf_cons_inv,
              addSlideArgsOf_nil, addSlideArgsOf_createPresentation,
              addSlideArgsOf_addCustomSlide]
          · intro pid hok
            exact absurd hok (by simp)
        next heq3 =>
          simp only [Prod.mk.injEq] at h
          obtain ⟨hev, hres⟩ := h
          subst hev
          subst hres
          refine ⟨⟨newId, ?_⟩, ?_, rfl, by decide, ?_⟩
          · simp [addSlideArgsOf_append, addSlideArgsOf_cons_auth,
              addSlideArgsOf_cons_setID, addSlideArgsOf_cons_inv,
              addSlideArgsOf_nil, addSlideArgsOf_createPresentation,
              addSlideArgsOf_addCustomSlide]
          · simp [addSlideArgsOf_append, addSlideArgsOf_cons_auth,
              addSlideArgsOf_cons_setID, addSlideArgsOf_cons_inv,
              addSlideArgsOf_nil, addSlideArgsOf_createPresentation,
              addSlideArgsOf_addCustomSlide]
          · intro pid hok
            injection hok with hok
            subst hok
            simp [addSlideArgsOf_append, addSlideArgsOf_cons_auth,
              addSlideArgsOf_cons_setID, addSlideArgsOf_cons_inv,
              addSlideArgsOf_nil, addSlideArgsOf_createPresentation,
              addSlideArgsOf_addCustomSlide]

theorem C6_witness :
    addSlideArgsOf (initiateSlides "Acme" (some "p") okDoc "2025-01-01"
        "u1" okDoc "u2" okDoc).1 =
      [(preSetBulletTitle, preSetBulletContent, "p", "Bullet"),
       (preSetBulletTitle, preSetBulletContent, "p", "Bullet")] :=
  (C6_duplicated_invocation "Acme" "2025-01-01" "u1" "u2" (some "p")
    okDoc okDoc okDoc
    (initiateSlides "Acme" (some "p") okDoc "2025-01-01" "u1" okDoc "u2"
      okDoc).1
    (initiateSlides "Acme" (some "p") okDoc "2025-01-01" "u1" okDoc "u2"
      okDoc).2
    rfl).2.2.2.2 "p" (by rfl)

end SlidesMCP

namespace SlidesMCP

/-- Counterexample to C7 as stated: the source row for key `acme` holds the
cell `" A B "` under header `loc`, yet the returned mapping holds `"A B"` —
the cell's surrounding whitespace is NOT preserved verbatim. -/
theorem C7_counterexample :
    rawRowsOf "name,loc\nacme, A B \nzz,q" =
      [["acme", " A B "], ["zz", "q"]] ∧
    extractData "acme" "name,loc\nacme, A B \nzz,q" =
      some [("name", "acme"), ("loc", "A B")] ∧
    (" A B " : String) ≠ "A B" := by
  refine ⟨by decide, by decide, by decide⟩

/-- C7 (amended): for every valid key, `extractData` returns a mapping
whose values equal the source row's cell values AFTER trimming surrounding
whitespace, under the (trimmed) source header names; a missing cell maps to
the empty string. -/
theorem C7_values_are_trimmed_cells (name csvFile : String)
    (assoc : List (String × String))
    (h : extractData name csvFile = some assoc) :
    ∃ row ∈ rawRowsOf csvFile,
      rowMatchesKey name (row.map jsTrim) = true ∧
      assoc = (headersOf csvFile).enum.map
        (fun p => (p.2, jsTrim (row.getD p.1 ""))) := by
  unfold extractData at h
  split at h
  · exact Option.noConfusion h
  next selectedRow hsel =>
    rw [trimmedRowsOf_eq_map, find?_map_eq] at hsel
    cases hfind : (rawRowsOf csvFile).find?
        (fun a => rowMatchesKey name (a.map jsTrim)) with
    | none =>
      rw [hfind] at hsel
      exact Option.noConfusion hsel
    | some row =>
      rw [hfind] at hsel
      injection hsel with hsel
      subst hsel
      injection h with h
      refine ⟨row, List.mem_of_find?_eq_some hfind,
        by simpa using List.find?_some hfind, ?_⟩
      rw [← h]
      congr 1
      funext p
      rw [getD_map_jsTrim]

theorem C7_witness :
    ∃ row ∈ rawRowsOf "name,loc\nacme, A B \nzz,q",
      rowMatchesKey "acme" (row.map jsTrim) = true ∧
      [("name", "acme"), ("loc", "A B")] =
        (headersOf "name,loc\nacme, A B \nzz,q").enum.map
          (fun p => (p.2, jsTrim (row.getD p.1 ""))) :=
  C7_values_are_trimmed_cells "acme" "name,loc\nacme, A B \nzz,q"
    [("name", "acme"), ("loc", "A B")] (by decide)

/-- C10: row lookup selects the FIRST row (in source order) whose first
cell equals the key after trimming surrounding whitespace and lowercasing
both sides; earlier non-matching rows are skipped and later matching rows
are ignored. -/
theorem C10_first_match_selected (name csvFile : String) (i : Nat)
    (hi : i < (trimmedRowsOf csvFile).length)
    (hmatch : rowMatchesKey name ((trimmedRowsOf csvFile).get ⟨i, hi⟩) = true)
    (hbefore : ∀ j (hj : j < i),
      rowMatchesKey name
        ((trimmedRowsOf csvFile).get ⟨j, Nat.lt_trans hj hi⟩) = false) :
    extractData name csvFile =
      some ((headersOf csvFile).enum.map
        (fun p => (p.2,
          ((trimmedRowsOf csvFile).get ⟨i, hi⟩).getD p.1 ""))) := by
  unfold extractData
  rw [find?_first (rowMatchesKey name) (trimmedRowsOf csvFile) i hi hbefore
    hmatch]

theorem C10_witness :
    extractData " Acme " "name,x\nACME,1\nacme,2" =
      some ((headersOf "name,x\nACME,1\nacme,2").enum.map
        (fun p => (p.2,
          ((trimmedRowsOf "name,x\nACME,1\nacme,2").get
            ⟨0, by decide⟩).getD p.1 ""))) :=
  C10_first_match_selected " Acme " "name,x\nACME,1\nacme,2" 0 (by decide)
    (by decide) (fun j hj => absurd hj (Nat.not_lt_zero j))

/-- Counterexample to C8 as stated: the create-presentation handler's
empty-name validation throws BEFORE its `try` block, so for an empty
company name the exception escapes the handler instead of becoming a text
result. -/
theorem C8_counterexample :
    (createPresentationHandler "" (some "p") okDoc "2025-01-01" "u1" okDoc
      "u2" okDoc).2 =
      .error "Missing or invalid input data for create-presentation" := rfl

/-- C8 (amended): the extract-data and add-custom-slide handlers return a
text result on every input; the create-presentation handler does so for
every non-empty company name, the empty name being the one input on which
an exception escapes it. -/
theorem C8_handlers_return_messages (name csvFile slideTitle slideContent
      presentationId slideType uniqueID companyName dateStr uid1 uid2 :
      String)
    (fetched titleDoc doc1 doc2 : Document) (createdId : Option String)
    (hname : companyName ≠ "") :
    isOkResult (extractDataHandler name csvFile) = true ∧
    isOkResult (addCustomSlideHandler slideTitle slideContent presentationId
      slideType uniqueID fetched).2 = true ∧
    isOkResult (createPresentationHandler companyName createdId titleDoc
      dateStr uid1 doc1 uid2 doc2).2 = true := by
  refine ⟨?_, ?_, ?_⟩
  · unfold extractDataHandler
    cases extractData name csvFile <;> rfl
  · by_cases hty : slideType = "Paragraph" ∨ slideType = "Bullet"
    · simp only [addCustomSlideHandler, if_pos hty]
      cases (addCustomSlide slideTitle slideContent presentationId slideType
        uniqueID fetched).2 <;> rfl
    · simp only [addCustomSlideHandler, if_neg hty]
      rfl
  · simp only [createPresentationHandler]
    rw [if_neg hname]
    cases (initiateSlides companyName createdId titleDoc dateStr uid1 doc1
      uid2 doc2).2 <;> rfl

theorem C8_witness :
    isOkResult (extractDataHandler "acme" "name\nacme") = true ∧
    isOkResult (addCustomSlideHandler "T" "C" "p" "Bullet" "u" okDoc).2 =
      true ∧
    isOkResult (createPresentationHandler "Acme" (some "p") okDoc
      "2025-01-01" "u1" okDoc "u2" okDoc).2 = true :=
  C8_handlers_return_messages "acme" "name\nacme" "T" "C" "p" "Bullet" "u"
    "Acme" "2025-01-01" "u1" "u2" okDoc okDoc okDoc okDoc (some "p")
    (by decide)

end SlidesMCP
